import Mathlib

/-!
Verification of the Email-Agent repository: a shallow embedding of its
classification pipeline (src/categorizer.py, src/agent.py), agent lifecycle
controller (src/agent_controller.py, src/main.py) and per-conversation
draft-reply state machine (src/telegram_bot.py), together with theorems
settling the specified properties.

External collaborators (the Gmail API service, the language-model oracle, the
Telegram transport) are passed in as function parameters; the embedded
definitions mirror the control flow of the Python source.
-/

namespace EmailAgent

/-! ## String normalization

Python `.strip().lower()` used on the oracle response in
`EmailCategorizer.categorize` (src/categorizer.py line 35). Character-list
based so that the kernel can evaluate it on concrete inputs. -/

/-- Lowercase every character, as Python `str.lower()`. -/
def strLower (s : String) : String := ⟨s.data.map Char.toLower⟩

/-- Drop leading and trailing whitespace, as Python `str.strip()`. -/
def strTrim (s : String) : String :=
  ⟨((s.data.dropWhile Char.isWhitespace).reverse.dropWhile Char.isWhitespace).reverse⟩

/-- The normalization applied to the raw oracle response:
`response_msg.content.strip().lower()`. -/
def normalize (s : String) : String := strLower (strTrim s)

/-! ## Taxonomy (src/config.py) -/

/-- Embeds `JOB_CATEGORIES` from src/config.py: the fixed closed taxonomy,
category key paired with its display label. -/
def JOB_CATEGORIES : List (String × String) :=
  [("application_confirmed", "Applied ✓"),
   ("interview_request", "Interview 📅"),
   ("interview_reminder", "Interview Reminder ⏰"),
   ("offer", "Job Offer 🎉"),
   ("rejected", "Rejected ❌"),
   ("assessment", "Assessment 📝"),
   ("follow_up", "Follow-up 💬"),
   ("job_alert", "Job Alert 🔔"),
   ("newsletter", "Newsletter 📰"),
   ("spam", "Spam 🗑️"),
   ("uncategorized", "Other 📧")]

/-- Embeds `IMPORTANT_CATEGORIES` from src/config.py line 19. -/
def IMPORTANT_CATEGORIES : List String :=
  ["interview_request", "interview_reminder", "follow_up"]

/-- The key set of `JOB_CATEGORIES` (Python dict-key membership `in`). -/
def job_category_keys : List String := JOB_CATEGORIES.map Prod.fst

/-- Python `JOB_CATEGORIES[key]["label"]` as an optional lookup. -/
def lookup_label (key : String) : Option String :=
  (JOB_CATEGORIES.find? (fun p => p.1 == key)).map Prod.snd

/-! ## Data model -/

/-- A fetched message as returned by `GmailHandler.get_email_details`
(src/gmail_client.py lines 93-100). -/
structure Email where
  id : String
  threadId : String
  sender : String
  subject : String
  snippet : String
deriving DecidableEq

/-- An email after classification: `categorize` adds the `category` and
`category_label` keys (src/categorizer.py lines 45-46). -/
structure CatEmail where
  id : String
  subject : String
  snippet : String
  category : String
  category_label : String
deriving DecidableEq

/-! ## Classification (src/categorizer.py, EmailCategorizer.categorize)

The oracle parameter stands for `self.chain.invoke({subject, snippet,
categories})` followed by extraction of the text content; an `Except.error`
models the per-email exception branch, in which the email is skipped. -/

/-- Embeds `EmailCategorizer.categorize`: classify a batch of emails with the
oracle, normalize the response, match against the taxonomy with fallback
`"uncategorized"`, and attach the display label. Emails whose oracle call
raises are skipped (the `except` branch logs and continues). -/
def categorize (oracle : String → String → Except String String) :
    List Email → List CatEmail
  | [] => []
  | e :: rest =>
    match oracle e.subject e.snippet with
    | Except.error _ => categorize oracle rest
    | Except.ok raw =>
      let response := normalize raw
      let category_key :=
        if response ∈ job_category_keys then response else "uncategorized"
      let label := (lookup_label category_key).getD ""
      { id := e.id, subject := e.subject, snippet := e.snippet,
        category := category_key, category_label := label }
        :: categorize oracle rest

/-- The reply-prompt template of `EmailCategorizer.generate_reply`
(src/categorizer.py lines 64-74), instantiated with the original email
content and the refinement instructions. -/
def reply_prompt (email_content instructions : String) : String :=
  "You are a helpful email assistant. Draft a professional reply to the following email.\n\nOriginal Email:\n"
    ++ email_content ++ "\n\nInstructions for reply:\n" ++ instructions
    ++ "\n\nDraft Reply:\n"

/-- Embeds `EmailCategorizer.generate_reply`: invoke the oracle on the reply prompt
built from the email content plus instructions and strip the result. -/
def generate_reply (llm : String → String) (email_content instructions : String) :
    String :=
  strTrim (llm (reply_prompt email_content instructions))

/-! ## Processing pipeline (src/agent.py, GmailLLMAgent.process_emails)

Observable side effects of one batch: Gmail label creations, label
applications, and Telegram notifications. -/

/-- One observable external action of `process_emails`. -/
inductive AgentEffect where
  | createLabel (name : String)
  | applyLabel (msg_id : String) (label_name : String)
  | notify (msg_id : String)
deriving DecidableEq

/-- Embeds `GmailHandler.check_label_exists` (src/gmail_client.py lines 137-143):
case-insensitive search through the existing label names. -/
def check_label_exists (labels : List String) (name : String) : Bool :=
  labels.any (fun l => strLower l == strLower name)

/-- The per-email loop of `GmailLLMAgent.process_emails` (src/agent.py lines
34-59): for each categorized email, create its label when absent (the live
label list grows), apply the label, and notify Telegram when the category is
important and both the bot token and chat id are configured (non-empty). -/
def apply_and_notify (telegram_token chat_id : String) :
    List CatEmail → List String → List AgentEffect
  | [], _ => []
  | e :: rest, labels =>
    let creates :=
      if check_label_exists labels e.category_label then []
      else [AgentEffect.createLabel e.category_label]
    let labels' :=
      if check_label_exists labels e.category_label then labels
      else labels ++ [e.category_label]
    let notifies :=
      if e.category ∈ IMPORTANT_CATEGORIES ∧ telegram_token ≠ "" ∧ chat_id ≠ ""
      then [AgentEffect.notify e.id] else []
    creates ++ [AgentEffect.applyLabel e.id e.category_label] ++ notifies
      ++ apply_and_notify telegram_token chat_id rest labels'

/-- Embeds `GmailLLMAgent.process_emails`: classify the fetched batch, then label
and notify each categorized email in fetch order. `labels` is the set of
Gmail label names existing when the batch starts. -/
def process_emails (oracle : String → String → Except String String)
    (telegram_token chat_id : String) (labels : List String)
    (emails : List Email) : List AgentEffect :=
  apply_and_notify telegram_token chat_id (categorize oracle emails) labels

/-- Number of `applyLabel` effects in a trace. -/
def count_apply (effs : List AgentEffect) : Nat :=
  effs.countP (fun e => match e with | AgentEffect.applyLabel _ _ => true | _ => false)

/-- Number of `notify` effects in a trace. -/
def count_notify (effs : List AgentEffect) : Nat :=
  effs.countP (fun e => match e with | AgentEffect.notify _ => true | _ => false)

/-! ## Polling loop (src/main.py, run_polling_loop)

The loop is driven by the outcomes of the `process_emails` calls: the
backfill pass outcome and the finite schedule of per-cycle outcomes observed
before the stop event is seen set at the loop top. -/

/-- Outcome record of one `run_polling_loop` run. -/
structure LoopLog where
  entered_loop : Bool
  cycles_run : Nat
deriving DecidableEq

/-- The monitoring `while True` loop (src/main.py lines 73-94): each
scheduled cycle runs inside try/except — an `Except.error` outcome is logged
and the loop continues with the next cycle; the run ends when the stop event
is observed set at the loop top (the end of the schedule). -/
def monitor_cycles : List (Except String Unit) → Nat
  | [] => 0
  | Except.ok _ :: rest => 1 + monitor_cycles rest
  | Except.error _ :: rest => 1 + monitor_cycles rest

/-- Embeds `run_polling_loop` (src/main.py lines 38-96): in `"backfill"` mode the
one-time wide pass runs first and any exception makes the function return
before the monitoring loop; otherwise, and after a successful backfill, the
monitoring loop runs the scheduled cycles. -/
def run_polling_loop (mode : String) (backfill_result : Except String Unit)
    (cycle_results : List (Except String Unit)) : LoopLog :=
  if mode == "backfill" then
    match backfill_result with
    | Except.error _ => { entered_loop := false, cycles_run := 0 }
    | Except.ok _ =>
      { entered_loop := true, cycles_run := monitor_cycles cycle_results }
  else
    { entered_loop := true, cycles_run := monitor_cycles cycle_results }

/-! ## Agent lifecycle controller (src/agent_controller.py)

The module-level globals `agent_thread`, `stop_event`, `agent_status`,
`last_run_time` form the controller state; thread and event identities are
naturals, and worker liveness (`Thread.is_alive`) is an environment
function. -/

/-- The module globals of src/agent_controller.py lines 10-13. -/
structure ControllerState where
  agent_thread : Option Nat
  stop_event : Option Nat
  agent_status : String
  last_run_time : String
deriving DecidableEq

/-- The `{success, message}` dictionaries returned by `start_agent` and
`stop_agent`. -/
structure AgentResult where
  success : Bool
  message : String
deriving DecidableEq

/-- Observable thread-management actions of the controller. The source never
performs a join or a forced termination; the constructors exist so their
absence from a trace is statable. -/
inductive CtrlEffect where
  | spawnThread (tid : Nat) (event_id : Nat)
  | setEvent (event_id : Nat)
  | joinThread (tid : Nat)
  | terminateThread (tid : Nat)
deriving DecidableEq

/-- Python `agent_thread and agent_thread.is_alive()`: a live worker exists. -/
def thread_is_alive (alive : Nat → Bool) : Option Nat → Bool
  | none => false
  | some t => alive t

/-- Embeds `start_agent` (src/agent_controller.py lines 15-32): refuse when a live
worker exists; otherwise create a fresh `threading.Event` (`fresh_event`),
spawn one worker thread (`fresh_tid`) bound to it, and set status
`"Running"`. Returns the result, the updated globals, and the effect trace. -/
def start_agent (alive : Nat → Bool) (fresh_tid fresh_event : Nat)
    (mode : String) (s : ControllerState) :
    AgentResult × ControllerState × List CtrlEffect :=
  if thread_is_alive alive s.agent_thread then
    ({ success := false, message := "Agent is already running" }, s, [])
  else
    ({ success := true,
       message := "Agent started successfully (Mode: " ++ mode ++ ")" },
     { s with agent_thread := some fresh_tid,
              stop_event := some fresh_event,
              agent_status := "Running" },
     [CtrlEffect.spawnThread fresh_tid fresh_event])

/-- Embeds `stop_agent` (src/agent_controller.py lines 34-45): refuse when no live
worker exists; otherwise set the stop event when one is stored, set status
`"Stopping..."`, and return success without joining or terminating the
worker. -/
def stop_agent (alive : Nat → Bool) (s : ControllerState) :
    AgentResult × ControllerState × List CtrlEffect :=
  if !(thread_is_alive alive s.agent_thread) then
    ({ success := false, message := "Agent is not running" }, s, [])
  else
    ({ success := true, message := "Agent stopping..." },
     { s with agent_status := "Stopping..." },
     match s.stop_event with
     | some e => [CtrlEffect.setEvent e]
     | none => [])

/-- The `{status, last_run}` dictionary returned by `get_agent_status`. -/
structure StatusResult where
  status : String
  last_run : String
deriving DecidableEq

/-- Embeds `get_agent_status` (src/agent_controller.py lines 47-58): when a stored
thread is observed dead while the stored status is `"Running"`, correct the
stored status to `"Stopped"` first; then return status and last-run time. -/
def get_agent_status (alive : Nat → Bool) (s : ControllerState) :
    StatusResult × ControllerState :=
  let corrected :=
    if (match s.agent_thread with
        | some t => !(alive t)
        | none => false) && (s.agent_status == "Running")
    then { s with agent_status := "Stopped" }
    else s
  ({ status := corrected.agent_status, last_run := corrected.last_run_time },
   corrected)

/-- The `finally` block of `_run_agent_wrapper` (src/agent_controller.py
lines 60-69): whatever happened inside `run_polling_loop`, the wrapper sets
the global status to `"Stopped"` on exit. -/
def wrapper_exit (s : ControllerState) : ControllerState :=
  { s with agent_status := "Stopped" }

/-! ## Worker shutdown timing (src/main.py lines 73-94)

A small-step model of the monitoring loop used to bound shutdown latency.
Time is counted in seconds; only `time.sleep(1)` consumes time. `procTime`
is the duration of the in-flight `process_emails` call (0 when no external
call is in flight). -/

/-- Control points of the monitoring loop: the `while True` top (stop-event
check), the processing pass, the stop-event check inside the sleep `for`
loop with `r` iterations remaining, the `time.sleep(1)` of the iteration
with `r` remaining, and loop exit. -/
inductive WState where
  | loopTop
  | processing
  | sleepCheck (r : Nat)
  | sleepTick (r : Nat)
  | exited
deriving DecidableEq

/-- One small step of the monitoring loop of `run_polling_loop`, returning
the next control point and the seconds consumed. `pollInterval` is the
configured `POLLING_INTERVAL` (imported in src/main.py but left undefined by
src/config.py; modelled as a parameter), `stop_set` whether the stop event
is currently set. -/
def wstep (pollInterval procTime : Nat) (stop_set : Bool) :
    WState → WState × Nat
  | WState.loopTop =>
    if stop_set then (WState.exited, 0) else (WState.processing, 0)
  | WState.processing => (WState.sleepCheck pollInterval, procTime)
  | WState.sleepCheck r =>
    if r == 0 then (WState.loopTop, 0)
    else if stop_set then (WState.loopTop, 0)
    else (WState.sleepTick r, 0)
  | WState.sleepTick r => (WState.sleepCheck (r - 1), 1)
  | WState.exited => (WState.exited, 0)

/-- Iterate `wstep` for at most `fuel` steps, accumulating elapsed seconds. -/
def wrun (pollInterval procTime : Nat) (stop_set : Bool) :
    Nat → WState → WState × Nat
  | 0, s => (s, 0)
  | Nat.succ fuel, s =>
    let st := wstep pollInterval procTime stop_set s
    let rest := wrun pollInterval procTime stop_set fuel st.1
    (rest.1, st.2 + rest.2)

/-! ## Draft-reply state machine (src/telegram_bot.py)

`self.drafts` and `self.user_states` are dictionaries keyed by chat id,
modelled as total functions into `Option`. The language-model oracle and the
Gmail send call are parameters. -/

/-- One entry of `self.drafts` (src/telegram_bot.py lines 336-343). -/
structure Draft where
  msg_id : String
  thread_id : String
  toAddr : String
  subject : String
  body : String
  original_content : String
deriving DecidableEq

/-- One entry of `self.user_states`: the armed state set by the regenerate
and edit callbacks, carrying the draft message id it was armed for. -/
inductive UState where
  | awaiting_instructions (msg_id : String)
  | awaiting_edit (msg_id : String)
deriving DecidableEq

/-- The mutable dictionaries of `TelegramBotHandler`. -/
structure BotState where
  drafts : Nat → Option Draft
  user_states : Nat → Option UState

/-- An outbound Mailbox Gateway call. -/
inductive GwCall where
  | sendReply (thread_id toAddr subject body : String)
deriving DecidableEq

/-- Embeds `GmailHandler.send_reply` (src/gmail_client.py lines 254-281): the
underlying Gmail API send either returns a sent message or raises; the
function catches every exception internally and returns `none` instead of
propagating, so it never raises to its caller. -/
def send_reply (api_result : Except String String) : Option String :=
  match api_result with
  | Except.ok sent => some sent
  | Except.error _ => none

/-- Result of one callback or message handler: the texts replied to the
chat, the Mailbox Gateway calls made, and the updated dictionaries. -/
structure BotOutcome where
  reply_texts : List String
  gw_calls : List GwCall
  state : BotState

/-- Embeds `TelegramBotHandler.handle_send_callback` (src/telegram_bot.py lines
378-398): reject when no draft is stored for the chat or its message id
differs from the callback draft id; on match, send the reply through
`send_reply` (whose result is not inspected — `gw` is the underlying Gmail
API outcome), report success, and delete the draft. `user_states` is never
touched. -/
def handle_send_callback (gw : String → String → String → String → Except String String)
    (st : BotState) (chat : Nat) (draft_id : String) : BotOutcome :=
  match st.drafts chat with
  | none =>
    { reply_texts := ["❌ Draft expired or not found."], gw_calls := [], state := st }
  | some draft =>
    if draft.msg_id ≠ draft_id then
      { reply_texts := ["❌ Draft expired or not found."], gw_calls := [], state := st }
    else
      let _ := send_reply (gw draft.thread_id draft.toAddr draft.subject draft.body)
      { reply_texts := ["✅ Reply sent successfully!"],
        gw_calls := [GwCall.sendReply draft.thread_id draft.toAddr draft.subject draft.body],
        state := { st with drafts := fun k => if k = chat then none else st.drafts k } }

/-- Embeds `TelegramBotHandler.handle_regenerate_callback` (src/telegram_bot.py
lines 400-406): arm the conversation so that its next free-form text input
is treated as refinement instructions; the stored draft is untouched. -/
def handle_regenerate_callback (st : BotState) (chat : Nat) (msg_id : String) :
    BotState :=
  { st with
    user_states := fun k =>
      if k = chat then some (UState.awaiting_instructions msg_id)
      else st.user_states k }

/-- Dictionary update clearing the armed state of `chat`
(`del self.user_states[chat_id]`). -/
def clear_ustate (st : BotState) (chat : Nat) : BotState :=
  { st with user_states := fun k => if k = chat then none else st.user_states k }

/-- Embeds `TelegramBotHandler.handle_message` (src/telegram_bot.py lines 431-483):
free-form text input. When the chat is armed `awaiting_instructions`, the
draft body is regenerated by the oracle from the original content stored in
the draft plus the instruction text, and the armed state is cleared; when
armed `awaiting_edit`, the text replaces the body verbatim; a missing or
mismatching draft clears the armed state without touching the draft; an
unarmed chat ignores the input. -/
def handle_message (llm : String → String) (st : BotState) (chat : Nat)
    (text : String) : BotOutcome :=
  match st.user_states chat with
  | some (UState.awaiting_instructions msg_id) =>
    (match st.drafts chat with
     | none =>
       { reply_texts := ["❌ Draft context lost. Please start over."],
         gw_calls := [], state := clear_ustate st chat }
     | some draft =>
       if draft.msg_id ≠ msg_id then
         { reply_texts := ["❌ Draft context lost. Please start over."],
           gw_calls := [], state := clear_ustate st chat }
       else
         let new_body := generate_reply llm draft.original_content text
         { reply_texts := ["⏳ Regenerating draft..."],
           gw_calls := [],
           state :=
             { drafts := fun k =>
                 if k = chat then some { draft with body := new_body }
                 else st.drafts k,
               user_states := fun k => if k = chat then none else st.user_states k } })
  | some (UState.awaiting_edit msg_id) =>
    (match st.drafts chat with
     | none =>
       { reply_texts := ["❌ Draft context lost. Please start over."],
         gw_calls := [], state := clear_ustate st chat }
     | some draft =>
       if draft.msg_id ≠ msg_id then
         { reply_texts := ["❌ Draft context lost. Please start over."],
           gw_calls := [], state := clear_ustate st chat }
       else
         { reply_texts := [],
           gw_calls := [],
           state :=
             { drafts := fun k =>
                 if k = chat then some { draft with body := text }
                 else st.drafts k,
               user_states := fun k => if k = chat then none else st.user_states k } })
  | none => { reply_texts := [], gw_calls := [], state := st }

/-! ## Theorems -/

/-- Membership in the key set is what the classification `if` tests. -/
theorem uncategorized_mem_keys : "uncategorized" ∈ job_category_keys := by
  decide

/-- Claim C1: every message classified by the pipeline is assigned the
normalized oracle response when that response is a taxonomy key, and
`"uncategorized"` otherwise; hence every classified message carries a
category key drawn from the fixed closed taxonomy. -/
theorem categorize_closed_taxonomy
    (oracle : String → String → Except String String) (emails : List Email)
    (c : CatEmail) (hc : c ∈ categorize oracle emails) :
    c.category ∈ job_category_keys ∧
    ∃ e ∈ emails, ∃ raw, oracle e.subject e.snippet = Except.ok raw ∧
      c.category =
        (if normalize raw ∈ job_category_keys then normalize raw
         else "uncategorized") := by
  induction emails with
  | nil => simp [categorize] at hc
  | cons e rest ih =>
    rw [categorize] at hc
    cases horacle : oracle e.subject e.snippet with
    | error err =>
      rw [horacle] at hc
      obtain ⟨hkey, e', he', raw, hraw, hcat⟩ := ih hc
      exact ⟨hkey, e', List.mem_cons_of_mem _ he', raw, hraw, hcat⟩
    | ok raw =>
      rw [horacle] at hc
      rcases List.mem_cons.mp hc with hchead | hctail
      · subst hchead
        constructor
        · by_cases hmem : normalize raw ∈ job_category_keys <;>
            simp [hmem, uncategorized_mem_keys]
        · exact ⟨e, List.mem_cons_self e rest, raw, horacle, rfl⟩
      · obtain ⟨hkey, e', he', raw', hraw', hcat⟩ := ih hctail
        exact ⟨hkey, e', List.mem_cons_of_mem _ he', raw', hraw', hcat⟩

/-- A concrete oracle for the C1 witness, answering a taxonomy key with
stray whitespace and capitalization. -/
def c1_oracle : String → String → Except String String :=
  fun _ _ => Except.ok "  Interview_Request "

/-- A concrete fetched message for the C1 witness. -/
def c1_email : Email :=
  { id := "m1", threadId := "t1", sender := "alice@example.com",
    subject := "Interview invitation", snippet := "We would like to schedule" }

/-- The classification the pipeline produces for `c1_email` under
`c1_oracle`. -/
def c1_result : CatEmail :=
  { id := "m1", subject := "Interview invitation",
    snippet := "We would like to schedule",
    category := "interview_request", category_label := "Interview 📅" }

/-- Witness for C1: the theorem applied to a concrete oracle and batch. -/
theorem categorize_closed_taxonomy_witness :
    c1_result ∈ categorize c1_oracle [c1_email] ∧
    (c1_result.category ∈ job_category_keys ∧
     ∃ e ∈ [c1_email], ∃ raw,
       c1_oracle e.subject e.snippet = Except.ok raw ∧
       c1_result.category =
         (if normalize raw ∈ job_category_keys then normalize raw
          else "uncategorized")) :=
  ⟨by decide,
   categorize_closed_taxonomy c1_oracle [c1_email] c1_result (by decide)⟩

/-- Claim C2: when a live worker thread exists, `start_agent` returns the
structured failure "Agent is already running", changes nothing and spawns no
second worker; when no live worker exists (a dead thread included),
`start_agent` spawns exactly one worker bound to a fresh cancellation
signal, stores the new thread and event, and sets status to Running. -/
theorem start_agent_single_worker (alive : Nat → Bool)
    (fresh_tid fresh_event : Nat) (mode : String) (s : ControllerState) :
    (thread_is_alive alive s.agent_thread = true →
      start_agent alive fresh_tid fresh_event mode s =
        ({ success := false, message := "Agent is already running" }, s, [])) ∧
    (thread_is_alive alive s.agent_thread = false →
      s.stop_event ≠ some fresh_event →
      (start_agent alive fresh_tid fresh_event mode s).1.success = true ∧
      (start_agent alive fresh_tid fresh_event mode s).2.2 =
        [CtrlEffect.spawnThread fresh_tid fresh_event] ∧
      (start_agent alive fresh_tid fresh_event mode s).2.1.agent_status =
        "Running" ∧
      (start_agent alive fresh_tid fresh_event mode s).2.1.agent_thread =
        some fresh_tid ∧
      (start_agent alive fresh_tid fresh_event mode s).2.1.stop_event =
        some fresh_event ∧
      (start_agent alive fresh_tid fresh_event mode s).2.1.stop_event ≠
        s.stop_event) := by
  constructor
  · intro halive
    simp [start_agent, halive]
  · intro hdead hfresh
    simp [start_agent, hdead]
    exact fun h => hfresh h.symm

/-- Witness for C2: a live worker (thread 0 alive) makes the second start
fail with no spawn; a dead worker (thread 0 not alive) does not block
restart, which spawns exactly one worker bound to the fresh event 11. -/
theorem start_agent_single_worker_witness :
    (start_agent (fun _ => true) 1 11 "monitor"
        { agent_thread := some 0, stop_event := some 10,
          agent_status := "Running", last_run_time := "Never" } =
      ({ success := false, message := "Agent is already running" },
       { agent_thread := some 0, stop_event := some 10,
         agent_status := "Running", last_run_time := "Never" }, [])) ∧
    ((start_agent (fun _ => false) 1 11 "monitor"
        { agent_thread := some 0, stop_event := some 10,
          agent_status := "Running", last_run_time := "Never" }).2.2 =
      [CtrlEffect.spawnThread 1 11]) :=
  ⟨(start_agent_single_worker (fun _ => true) 1 11 "monitor"
      { agent_thread := some 0, stop_event := some 10,
        agent_status := "Running", last_run_time := "Never" }).1 (by decide),
   ((start_agent_single_worker (fun _ => false) 1 11 "monitor"
      { agent_thread := some 0, stop_event := some 10,
        agent_status := "Running", last_run_time := "Never" }).2 (by decide)
      (by decide)).2.1⟩

/-- Claim C7: `stop_agent` returns the structured failure "Agent is not
running" when no live worker exists; otherwise it sets the stored stop
event, sets status to "Stopping...", and returns success — its effect trace
never contains a thread join or a forced termination. -/
theorem stop_agent_structured (alive : Nat → Bool) (s : ControllerState) :
    (thread_is_alive alive s.agent_thread = false →
      stop_agent alive s =
        ({ success := false, message := "Agent is not running" }, s, [])) ∧
    (∀ e, thread_is_alive alive s.agent_thread = true →
      s.stop_event = some e →
      stop_agent alive s =
        ({ success := true, message := "Agent stopping..." },
         { s with agent_status := "Stopping..." },
         [CtrlEffect.setEvent e])) ∧
    (∀ t, CtrlEffect.joinThread t ∉ (stop_agent alive s).2.2 ∧
          CtrlEffect.terminateThread t ∉ (stop_agent alive s).2.2) := by
  refine ⟨fun hdead => by simp [stop_agent, hdead],
          fun e halive hevent => by simp [stop_agent, halive, hevent], ?_⟩
  intro t
  unfold stop_agent
  cases h : thread_is_alive alive s.agent_thread <;>
    cases hev : s.stop_event <;> simp [h, hev]

/-- Witness for C7: stopping with no live worker fails structurally;
stopping a live worker raises exactly the stored cancellation signal. -/
theorem stop_agent_structured_witness :
    (stop_agent (fun _ => false)
        { agent_thread := some 0, stop_event := some 10,
          agent_status := "Running", last_run_time := "Never" } =
      ({ success := false, message := "Agent is not running" },
       { agent_thread := some 0, stop_event := some 10,
         agent_status := "Running", last_run_time := "Never" }, [])) ∧
    (stop_agent (fun _ => true)
        { agent_thread := some 0, stop_event := some 10,
          agent_status := "Running", last_run_time := "Never" } =
      ({ success := true, message := "Agent stopping..." },
       { agent_thread := some 0, stop_event := some 10,
         agent_status := "Stopping...", last_run_time := "Never" },
       [CtrlEffect.setEvent 10])) :=
  ⟨(stop_agent_structured (fun _ => false)
      { agent_thread := some 0, stop_event := some 10,
        agent_status := "Running", last_run_time := "Never" }).1 (by decide),
   (stop_agent_structured (fun _ => true)
      { agent_thread := some 0, stop_event := some 10,
        agent_status := "Running", last_run_time := "Never" }).2.1 10
     (by decide) (by decide)⟩

/-- Claim C8: `get_agent_status` is a reconciling read — when the stored
status is Running but the stored worker thread is observed dead, it corrects
the stored status to Stopped before returning, and in every case it returns
the pair of the possibly corrected status and the last-run timestamp. -/
theorem status_reconciles_dead_worker (alive : Nat → Bool)
    (s : ControllerState) (t : Nat) (ht : s.agent_thread = some t)
    (hdead : alive t = false) (hrun : s.agent_status = "Running") :
    (get_agent_status alive s).1 =
      { status := "Stopped", last_run := s.last_run_time } ∧
    (get_agent_status alive s).2.agent_status = "Stopped" ∧
    ∀ s2 : ControllerState,
      (get_agent_status alive s2).1.status =
        (get_agent_status alive s2).2.agent_status ∧
      (get_agent_status alive s2).1.last_run = s2.last_run_time := by
  refine ⟨by simp [get_agent_status, ht, hdead, hrun],
          by simp [get_agent_status, ht, hdead, hrun], ?_⟩
  intro s2
  unfold get_agent_status
  cases h : s2.agent_thread <;> simp
  split <;> simp

/-- Witness for C8: a dead thread with stored status Running is reported and
stored as Stopped, the last-run timestamp passed through. -/
theorem status_reconciles_dead_worker_witness :
    (get_agent_status (fun _ => false)
        { agent_thread := some 0, stop_event := some 10,
          agent_status := "Running", last_run_time := "2024-01-01" }).1 =
      { status := "Stopped", last_run := "2024-01-01" } :=
  (status_reconciles_dead_worker (fun _ => false)
    { agent_thread := some 0, stop_event := some 10,
      agent_status := "Running", last_run_time := "2024-01-01" } 0
    (by decide) (by decide) (by decide)).1

/-- Every scheduled monitoring cycle runs, whatever its outcome. -/
theorem monitor_cycles_length (cs : List (Except String Unit)) :
    monitor_cycles cs = cs.length := by
  induction cs with
  | nil => rfl
  | cons c rest ih => cases c <;> simp [monitor_cycles, ih] <;> omega

/-- Claim C4: in backfill mode an exception during the one-time backfill
pass makes the worker return without entering the monitoring loop, while an
exception during a monitoring cycle is caught and the loop continues — every
scheduled cycle runs. -/
theorem backfill_fatal_monitor_resilient (mode : String)
    (b : Except String Unit) (cs : List (Except String Unit)) :
    (mode = "backfill" → ∀ err, b = Except.error err →
      run_polling_loop mode b cs =
        { entered_loop := false, cycles_run := 0 }) ∧
    ((run_polling_loop mode b cs).entered_loop = true →
      (run_polling_loop mode b cs).cycles_run = cs.length) ∧
    (∀ err rest, monitor_cycles (Except.error err :: rest) =
      1 + monitor_cycles rest) := by
  refine ⟨fun hmode err hb => by simp [run_polling_loop, hmode, hb], ?_,
          fun err rest => rfl⟩
  intro h
  cases b with
  | error e =>
    by_cases hm : (mode == "backfill") = true
    · simp [run_polling_loop, hm] at h
    · simp [run_polling_loop, hm, monitor_cycles_length]
  | ok u =>
    by_cases hm : (mode == "backfill") = true <;>
      simp [run_polling_loop, hm, monitor_cycles_length]

/-- Witness for C4: a failing backfill never reaches the loop; in monitor
mode a schedule with a failing middle cycle still runs all three cycles. -/
theorem backfill_fatal_monitor_resilient_witness :
    (run_polling_loop "backfill" (Except.error "boom")
        [Except.ok (), Except.ok ()] =
      { entered_loop := false, cycles_run := 0 }) ∧
    ((run_polling_loop "monitor" (Except.ok ())
        [Except.ok (), Except.error "cycle failed", Except.ok ()]).cycles_run =
      [Except.ok (), Except.error "cycle failed", Except.ok ()].length) :=
  ⟨(backfill_fatal_monitor_resilient "backfill" (Except.error "boom")
      [Except.ok (), Except.ok ()]).1 rfl "boom" rfl,
   (backfill_fatal_monitor_resilient "monitor" (Except.ok ())
      [Except.ok (), Except.error "cycle failed", Except.ok ()]).2.1
     (by decide)⟩

/-- Claim C6: with the stop event set and no external call in flight, the
worker reaches exit from any control point in at most `pollInterval + 1`
seconds (in fact at most one 1-second sleep increment): every sleep
increment is one second and re-checks the signal, the loop top checks it
too, and the wrapper exit leaves the stored status at "Stopped", which
`get_agent_status` then reports. -/
theorem stop_latency_bounded (pollInterval : Nat) (w : WState)
    (alive : Nat → Bool) (s : ControllerState) :
    (wrun pollInterval 0 true 4 w).1 = WState.exited ∧
    (wrun pollInterval 0 true 4 w).2 ≤ pollInterval + 1 ∧
    (∀ r, wstep pollInterval 0 true (WState.sleepCheck (r + 1)) =
      (WState.loopTop, 0)) ∧
    (∀ r procTime stop_set, wstep pollInterval procTime stop_set
      (WState.sleepTick r) = (WState.sleepCheck (r - 1), 1)) ∧
    wstep pollInterval 0 true WState.loopTop = (WState.exited, 0) ∧
    (get_agent_status alive (wrapper_exit s)).1.status = "Stopped" := by
  refine ⟨?_, ?_, fun r => by simp [wstep], fun r procTime stop_set => rfl,
          rfl, ?_⟩
  · cases w <;> simp [wrun, wstep, ite_self]
  · cases w <;> simp [wrun, wstep, ite_self]
  · unfold get_agent_status wrapper_exit
    cases h : s.agent_thread <;> simp

/-- Claim C3: for a conversation holding a stored draft, a send callback
with a mismatching draft message id is rejected with the draft-expired
reply, makes no Mailbox Gateway call and leaves the whole state unchanged;
a send callback with the matching id makes exactly one `sendReply` call and
deletes the draft, leaving the armed states untouched. -/
theorem send_requires_matching_draft_id
    (gw : String → String → String → String → Except String String)
    (st : BotState) (chat : Nat) (d : Draft) (draft_id : String)
    (hd : st.drafts chat = some d) :
    (d.msg_id ≠ draft_id →
      (handle_send_callback gw st chat draft_id).gw_calls = [] ∧
      (handle_send_callback gw st chat draft_id).state = st ∧
      (handle_send_callback gw st chat draft_id).reply_texts =
        ["❌ Draft expired or not found."]) ∧
    (d.msg_id = draft_id →
      (handle_send_callback gw st chat draft_id).gw_calls =
        [GwCall.sendReply d.thread_id d.toAddr d.subject d.body] ∧
      (handle_send_callback gw st chat draft_id).state.drafts chat = none ∧
      (handle_send_callback gw st chat draft_id).state.user_states =
        st.user_states) := by
  constructor
  · intro hne
    simp [handle_send_callback, hd, hne]
  · intro heq
    simp [handle_send_callback, hd, heq]

/-- A concrete stored draft used by the C3, C5 and C10 witnesses. -/
def w_draft : Draft :=
  { msg_id := "m1", thread_id := "t1", toAddr := "alice@example.com",
    subject := "Re: Interview invitation", body := "First draft body",
    original_content := "Subject: Interview invitation" }

/-- A concrete bot state holding `w_draft` for chat 5 and no armed states. -/
def w_state : BotState :=
  { drafts := fun k => if k = 5 then some w_draft else none,
    user_states := fun _ => none }

/-- Witness for C3: with the stored draft for chat 5, a stale id makes no
gateway call, the matching id makes exactly one. -/
theorem send_requires_matching_draft_id_witness :
    ((handle_send_callback (fun _ _ _ _ => Except.ok "sent") w_state 5
        "stale").gw_calls = [] ∧
     (handle_send_callback (fun _ _ _ _ => Except.ok "sent") w_state 5
        "stale").state = w_state ∧
     (handle_send_callback (fun _ _ _ _ => Except.ok "sent") w_state 5
        "stale").reply_texts = ["❌ Draft expired or not found."]) ∧
    (handle_send_callback (fun _ _ _ _ => Except.ok "sent") w_state 5
        "m1").gw_calls =
      [GwCall.sendReply "t1" "alice@example.com" "Re: Interview invitation"
        "First draft body"] :=
  ⟨(send_requires_matching_draft_id (fun _ _ _ _ => Except.ok "sent") w_state
      5 w_draft "stale" rfl).1 (by decide),
   ((send_requires_matching_draft_id (fun _ _ _ _ => Except.ok "sent") w_state
      5 w_draft "m1" rfl).2 rfl).1⟩

/-- Claim C10: when the stored draft matches the send callback id, the
draft is deleted and success is reported whatever the underlying Gmail API
outcome is, because `send_reply` catches every failure internally and
returns `none` instead of raising. -/
theorem send_clears_draft_regardless_of_delivery
    (gw : String → String → String → String → Except String String)
    (st : BotState) (chat : Nat) (d : Draft) (draft_id : String)
    (hd : st.drafts chat = some d) (hid : d.msg_id = draft_id) :
    (handle_send_callback gw st chat draft_id).state.drafts chat = none ∧
    (handle_send_callback gw st chat draft_id).reply_texts =
      ["✅ Reply sent successfully!"] ∧
    (∀ err, send_reply (Except.error err) = none) := by
  refine ⟨?_, ?_, fun err => rfl⟩ <;> simp [handle_send_callback, hd, hid]

/-- Witness for C10: a gateway whose send always fails still yields a
deleted draft and a success reply. -/
theorem send_clears_draft_regardless_of_delivery_witness :
    (handle_send_callback (fun _ _ _ _ => Except.error "network down")
        w_state 5 "m1").state.drafts 5 = none ∧
    (handle_send_callback (fun _ _ _ _ => Except.error "network down")
        w_state 5 "m1").reply_texts = ["✅ Reply sent successfully!"] :=
  ⟨(send_clears_draft_regardless_of_delivery
      (fun _ _ _ _ => Except.error "network down") w_state 5 w_draft "m1"
      rfl rfl).1,
   (send_clears_draft_regardless_of_delivery
      (fun _ _ _ _ => Except.error "network down") w_state 5 w_draft "m1"
      rfl rfl).2.1⟩

/-- Claim C5: arming a conversation through the regenerate callback and then
sending free-form text replaces the draft body with the oracle reply
generated from the original message content stored in the draft plus that
instruction text, clears the armed state (so a further free-form text is
ignored), and the new body does not depend on the previously generated draft
body. -/
theorem regenerate_uses_original_content (llm : String → String)
    (st : BotState) (chat : Nat) (d : Draft) (text : String)
    (hd : st.drafts chat = some d) :
    (handle_message llm (handle_regenerate_callback st chat d.msg_id) chat
        text).state.drafts chat =
      some { d with body := generate_reply llm d.original_content text } ∧
    (handle_message llm (handle_regenerate_callback st chat d.msg_id) chat
        text).state.user_states chat = none ∧
    (∀ text2,
      (handle_message llm
          (handle_message llm (handle_regenerate_callback st chat d.msg_id)
            chat text).state chat text2).state =
        (handle_message llm (handle_regenerate_callback st chat d.msg_id)
          chat text).state) ∧
    (∀ body2,
      (handle_message llm
          (handle_regenerate_callback
            { st with drafts := fun k =>
                if k = chat then some { d with body := body2 }
                else st.drafts k }
            chat d.msg_id) chat text).state.drafts chat =
        some { d with body := generate_reply llm d.original_content text }) := by
  refine ⟨?_, ?_, ?_, ?_⟩
  · simp [handle_message, handle_regenerate_callback, hd]
  · simp [handle_message, handle_regenerate_callback, hd]
  · intro text2
    simp [handle_message, handle_regenerate_callback, hd]
  · intro body2
    simp [handle_message, handle_regenerate_callback]

/-- Witness for C5: with the stored draft for chat 5 and an identity oracle,
the regenerated body is the stripped reply prompt built from the original
content plus the instruction, and the armed state is consumed. -/
theorem regenerate_uses_original_content_witness :
    (handle_message (fun p => p)
        (handle_regenerate_callback w_state 5 "m1") 5
        "make it shorter").state.drafts 5 =
      some { w_draft with
        body := generate_reply (fun p => p) "Subject: Interview invitation"
          "make it shorter" } ∧
    (handle_message (fun p => p)
        (handle_regenerate_callback w_state 5 "m1") 5
        "make it shorter").state.user_states 5 = none :=
  ⟨(regenerate_uses_original_content (fun p => p) w_state 5 w_draft
      "make it shorter" rfl).1,
   (regenerate_uses_original_content (fun p => p) w_state 5 w_draft
      "make it shorter" rfl).2.1⟩

/-- The three-message batch of the C9 scenario. -/
def c9_emails : List Email :=
  [{ id := "msg1", threadId := "th1", sender := "r1@example.com",
     subject := "s1", snippet := "p1" },
   { id := "msg2", threadId := "th2", sender := "r2@example.com",
     subject := "s2", snippet := "p2" },
   { id := "msg3", threadId := "th3", sender := "r3@example.com",
     subject := "s3", snippet := "p3" }]

/-- A C9 oracle classifying the three messages as interview_request,
newsletter and offer. -/
def c9_oracle : String → String → Except String String :=
  fun subject _ =>
    Except.ok (if subject == "s1" then "interview_request"
               else if subject == "s2" then "newsletter" else "offer")

/-- The effect trace of processing the C9 batch with configured Telegram
credentials and no pre-existing Gmail labels. -/
def c9_effects : List AgentEffect :=
  process_emails c9_oracle "bot-token" "chat42" [] c9_emails

/-- Counterexample to C9 as stated: processing the scenario batch does not
apply exactly 2 labels — every message is labeled, so 3 labels are
applied. -/
theorem c9_label_count_is_not_two : ¬ (count_apply c9_effects = 2) := by
  decide

/-- Claim C9 (amended): processing the scenario batch applies exactly 3
labels, one per message and each matching the display label of its category,
and emits exactly 1 notification, for the interview_request message. -/
theorem c9_scenario_amended :
    count_apply c9_effects = 3 ∧
    count_notify c9_effects = 1 ∧
    c9_effects =
      [AgentEffect.createLabel "Interview 📅",
       AgentEffect.applyLabel "msg1" "Interview 📅",
       AgentEffect.notify "msg1",
       AgentEffect.createLabel "Newsletter 📰",
       AgentEffect.applyLabel "msg2" "Newsletter 📰",
       AgentEffect.createLabel "Job Offer 🎉",
       AgentEffect.applyLabel "msg3" "Job Offer 🎉"] := by
  refine ⟨by decide, by decide, by decide⟩

end EmailAgent
